import Mathlib

/-!
Shallow embedding of the LiteLLM Crossplane provider's Key controller
(`internal/controller/key/key.go`) and its API types
(`apis/key/v1alpha1/key_types.go`).

Go structs become Lean structures; pointer mutation of the managed record
becomes explicit record passing (each external-client method returns the
post-state of the record); the HTTP boundary (transport outcome and
response decoding) is an explicit environment value, while everything the
controller computes itself (payload, request, status overwrite, connection
details) is concrete.  `float64` fields are carried as `Rat` (they are
only copied, never computed with).  `metav1.Time` is carried as `Int`.
-/

namespace LiteLLM

/-- Error message constants from key.go. -/
def errNotKey : String := "managed resource is not a Key custom resource"

def errTrackPCUsage : String := "cannot track ProviderConfig usage"

def errGetPC : String := "cannot get ProviderConfig"

def errGetCreds : String := "cannot get credentials"

def errNewClient : String := "cannot create new Service"

/-- KeyParameters: the configurable fields of a Key (key_types.go). -/
structure KeyParameters where
  duration : String
  keyAlias : String
  key : String
  teamID : String
  userID : String
  models : List String
  maxBudget : Rat
  budgetDuration : String
  metadata : List (String × String)
  deriving DecidableEq

/-- KeyObservation: the observable fields of a Key (key_types.go). -/
structure KeyObservation where
  key : String
  expires : Int
  userID : String
  status : String
  deriving DecidableEq

/-- A status condition (type/status/reason), from the embedded
crossplane ResourceStatus. -/
structure Condition where
  ctype : String
  cstatus : String
  reason : String
  deriving DecidableEq

/-- KeySpec: desired state of a Key; the embedded ResourceSpec contributes
the ProviderConfig reference. -/
structure KeySpec where
  providerConfigRef : String
  forProvider : KeyParameters
  deriving DecidableEq

/-- KeyStatus: observed state of a Key; the embedded ResourceStatus
contributes the conditions. -/
structure KeyStatus where
  conditions : List Condition
  atProvider : KeyObservation
  deriving DecidableEq

/-- Object metadata: the stable name identifying the record. -/
structure ObjectMeta where
  name : String
  deriving DecidableEq

/-- A Key managed resource (key_types.go). -/
structure Key where
  metadata : ObjectMeta
  spec : KeySpec
  status : KeyStatus
  deriving DecidableEq

/-- TeamParameters (team types file): the other record kind in the repo,
used as the concrete non-Key managed resource. -/
structure TeamParameters where
  configurableField : String
  deriving DecidableEq

/-- TeamObservation (team types file). -/
structure TeamObservation where
  observableField : String
  deriving DecidableEq

/-- TeamSpec (team types file). -/
structure TeamSpec where
  providerConfigRef : String
  forProvider : TeamParameters
  deriving DecidableEq

/-- TeamStatus (team types file). -/
structure TeamStatus where
  conditions : List Condition
  atProvider : TeamObservation
  deriving DecidableEq

/-- A Team managed resource (team types file). -/
structure Team where
  metadata : ObjectMeta
  spec : TeamSpec
  status : TeamStatus
  deriving DecidableEq

/-- The `resource.Managed` interface value handed to the controller:
either a Key or some other kind (Team is the repo's other kind).  The
`mg.(*v1alpha1.Key)` type assertion becomes a match on this sum. -/
inductive Managed where
  | key (cr : Key)
  | team (cr : Team)
  deriving DecidableEq

/-- `managed.ConnectionDetails`: named secret bytes (bytes as String). -/
abbrev ConnectionDetails := List (String × String)

/-- `managed.ExternalObservation`. -/
structure ExternalObservation where
  resourceExists : Bool
  resourceUpToDate : Bool
  connectionDetails : ConnectionDetails
  deriving DecidableEq

/-- `managed.ExternalCreation`. -/
structure ExternalCreation where
  connectionDetails : ConnectionDetails
  deriving DecidableEq

/-- `managed.ExternalUpdate`. -/
structure ExternalUpdate where
  connectionDetails : ConnectionDetails
  deriving DecidableEq

/-- The error values the external client methods can return: the
`errNotKey` contract violation, and the four wrapped failure kinds of
Create (marshal, request construction, transport, decode), each carrying
the underlying cause. -/
inductive ExtError where
  | notKey
  | marshalFailed (cause : String)
  | requestFailed (cause : String)
  | createKeyFailed (cause : String)
  | decodeFailed (cause : String)
  deriving DecidableEq

/-- The rendered message of each error, with the wrap texts used in
key.go. -/
def ExtError.message : ExtError → String
  | .notKey => errNotKey
  | .marshalFailed c => "failed to marshal payload: " ++ c
  | .requestFailed c => "failed to create request: " ++ c
  | .createKeyFailed c => "failed to create key: " ++ c
  | .decodeFailed c => "failed to decode key response: " ++ c

/-- The opaque service handle; the repo only ever constructs NoOpService. -/
inductive Service where
  | noOp
  deriving DecidableEq

/-- A ProviderConfig: API base address plus a credential source
descriptor. -/
structure ProviderConfig where
  apiBase : String
  credentialsSource : String
  deriving DecidableEq

/-- The bound external client (struct `external` in key.go). -/
structure External where
  service : Service
  apiBase : String
  apiKey : String
  deriving DecidableEq

/-- Resolved credential data: the `data []byte` that the common credential
extractor yields, modelled as the named entries the controller indexes
into. -/
abbrev CredData := List (String × String)

/-- The credential entry name used when the connector extracts the API key
from the resolved credential data (the ResourceCredentialsSecret API-key
key). -/
def resourceCredentialsSecretAPIKeyKey : String := "apiKey"

/-- Look up an entry in named string data, empty when absent. -/
def lookupStr (m : List (String × String)) (k : String) : String :=
  ((m.find? (fun p => p.1 == k)).map Prod.snd).getD ""

/-- The collaborators Connect calls into, each an injected outcome:
usage tracking, ProviderConfig fetch by name, credential extraction from
a source descriptor, and the injected `newServiceFn`. -/
structure ConnectEnv where
  track : Except String Unit
  getPC : String → Except String ProviderConfig
  extractCreds : String → Except String CredData
  newService : CredData → Except String Service

/-- The five sequential steps of Connect, in source order. -/
inductive ConnectStep where
  | typeCheck
  | trackUsage
  | getProviderConfig
  | getCredentials
  | newService
  deriving DecidableEq

/-- The distinct errors Connect can return, each wrapping its cause with
the corresponding message constant. -/
inductive ConnErr where
  | notKey
  | trackFailed (cause : String)
  | getPCFailed (cause : String)
  | getCredsFailed (cause : String)
  | newClientFailed (cause : String)
  deriving DecidableEq

/-- The rendered message of each Connect error, with the wrap texts of
key.go. -/
def ConnErr.message : ConnErr → String
  | .notKey => errNotKey
  | .trackFailed c => errTrackPCUsage ++ ": " ++ c
  | .getPCFailed c => errGetPC ++ ": " ++ c
  | .getCredsFailed c => errGetCreds ++ ": " ++ c
  | .newClientFailed c => errNewClient ++ ": " ++ c

/-- What a call to Connect produced: the steps it attempted, in order,
and either the bound client or the error. -/
structure ConnectOutcome where
  steps : List ConnectStep
  result : Except ConnErr External

/-- `connector.Connect` (key.go): type-check the record, track
ProviderConfig usage, fetch the ProviderConfig named by the record's
reference, extract credentials from the config's source, build the
service, and bind the client to the config's API base and the API key
taken from the credential data.  Each collaborator call is consulted only
after every earlier step succeeded. -/
def connectorConnect (env : ConnectEnv) (mg : Managed) : ConnectOutcome :=
  match mg with
  | .team _ => ⟨[.typeCheck], .error .notKey⟩
  | .key cr =>
    match env.track with
    | .error e => ⟨[.typeCheck, .trackUsage], .error (.trackFailed e)⟩
    | .ok _ =>
      match env.getPC cr.spec.providerConfigRef with
      | .error e =>
        ⟨[.typeCheck, .trackUsage, .getProviderConfig], .error (.getPCFailed e)⟩
      | .ok pc =>
        match env.extractCreds pc.credentialsSource with
        | .error e =>
          ⟨[.typeCheck, .trackUsage, .getProviderConfig, .getCredentials],
           .error (.getCredsFailed e)⟩
        | .ok data =>
          match env.newService data with
          | .error e =>
            ⟨[.typeCheck, .trackUsage, .getProviderConfig, .getCredentials,
              .newService],
             .error (.newClientFailed e)⟩
          | .ok svc =>
            ⟨[.typeCheck, .trackUsage, .getProviderConfig, .getCredentials,
              .newService],
             .ok { service := svc, apiBase := pc.apiBase,
                   apiKey := lookupStr data resourceCredentialsSecretAPIKeyKey }⟩

/-- A JSON value as placed in the Create payload map: the Go map holds
strings, a string list, a float64 and a string map. -/
inductive FieldValue where
  | str (s : String)
  | strList (xs : List String)
  | num (q : Rat)
  | strMap (m : List (String × String))
  deriving DecidableEq

/-- An HTTP request as the controller builds it: method, URL, headers in
the order they are set, and the marshalled JSON object body. -/
structure HttpRequest where
  method : String
  url : String
  headers : List (String × String)
  body : List (String × FieldValue)
  deriving DecidableEq

/-- The Create payload (key.go lines 181-191): the nine entries of the
`map[string]interface{}`, each taken from `cr.Spec.ForProvider`. -/
def createPayload (p : KeyParameters) : List (String × FieldValue) :=
  [("duration", .str p.duration),
   ("key_alias", .str p.keyAlias),
   ("key", .str p.key),
   ("team_id", .str p.teamID),
   ("user_id", .str p.userID),
   ("models", .strList p.models),
   ("max_budget", .num p.maxBudget),
   ("budget_duration", .str p.budgetDuration),
   ("metadata", .strMap p.metadata)]

/-- The request Create issues: POST to apiBase ++ "/key/generate" with
the JSON payload and the two headers set in key.go. -/
def createRequest (apiBase apiKey : String) (p : KeyParameters) : HttpRequest :=
  { method := "POST"
    url := apiBase ++ "/key/generate"
    headers := [("Content-Type", "application/json"),
                ("Authorization", "Bearer " ++ apiKey)]
    body := createPayload p }

/-- The anonymous response struct Create decodes into:
`{key, expires, user_id, status}`. -/
structure KeyGenerateResponse where
  key : String
  expires : Int
  userID : String
  status : String
  deriving DecidableEq

/-- What the response body decodes to: either a decode failure or the
decoded struct. -/
inductive ResponseBody where
  | malformed (cause : String)
  | decoded (r : KeyGenerateResponse)
  deriving DecidableEq

/-- The outcome of `c.client.Do(req)`: a transport error, or a response
whose body then goes through the JSON decoder. -/
inductive DoResult where
  | transportErr (cause : String)
  | response (body : ResponseBody)
  deriving DecidableEq

/-- The external world as seen by one Create call: whether json.Marshal
fails, whether http.NewRequest fails, and what the HTTP round trip
returns. -/
structure CreateEnv where
  marshalErr : Option String
  newRequestErr : Option String
  doResult : DoResult
  deriving DecidableEq

instance {ε α : Type} [DecidableEq ε] [DecidableEq α] :
    DecidableEq (Except ε α) := fun a b =>
  match a, b with
  | .ok x, .ok y =>
    if h : x = y then .isTrue (by rw [h])
    else .isFalse (fun hc => h (Except.ok.inj hc))
  | .error x, .error y =>
    if h : x = y then .isTrue (by rw [h])
    else .isFalse (fun hc => h (Except.error.inj hc))
  | .ok _, .error _ => .isFalse (fun hc => Except.noConfusion hc)
  | .error _, .ok _ => .isFalse (fun hc => Except.noConfusion hc)

/-- What a call to Create produced: the post-state of the managed record,
the requests issued over the wire (in order), and either the
ExternalCreation or the error. -/
structure CreateOutcome where
  record : Managed
  requests : List HttpRequest
  result : Except ExtError ExternalCreation
  deriving DecidableEq

/-- `external.Create` (key.go): type-check, build the payload from
spec.forProvider, marshal it, build the POST request with its two
headers, perform the round trip, decode `{key, expires, user_id, status}`,
overwrite the four status.atProvider fields with the decoded values, and
return ConnectionDetails mapping "key" to the issued key bytes. -/
def externalCreate (c : External) (env : CreateEnv) (mg : Managed) :
    CreateOutcome :=
  match mg with
  | .team t => ⟨.team t, [], .error .notKey⟩
  | .key cr =>
    match env.marshalErr with
    | some e => ⟨.key cr, [], .error (.marshalFailed e)⟩
    | none =>
      match env.newRequestErr with
      | some e => ⟨.key cr, [], .error (.requestFailed e)⟩
      | none =>
        let req := createRequest c.apiBase c.apiKey cr.spec.forProvider
        match env.doResult with
        | .transportErr e => ⟨.key cr, [req], .error (.createKeyFailed e)⟩
        | .response (.malformed e) => ⟨.key cr, [req], .error (.decodeFailed e)⟩
        | .response (.decoded r) =>
          ⟨.key { cr with status := { cr.status with
              atProvider := { key := r.key, expires := r.expires,
                              userID := r.userID, status := r.status } } },
           [req],
           .ok { connectionDetails := [("key", r.key)] }⟩

/-- What a call to Observe produced. -/
structure ObserveOutcome where
  record : Managed
  result : Except ExtError ExternalObservation
  deriving DecidableEq

/-- `external.Observe` (key.go): type-check, then unconditionally report
ResourceExists and ResourceUpToDate with empty ConnectionDetails; no
external call is made and the record is untouched. -/
def externalObserve (c : External) (mg : Managed) : ObserveOutcome :=
  match c, mg with
  | _, .team t => ⟨.team t, .error .notKey⟩
  | _, .key cr =>
    ⟨.key cr,
     .ok { resourceExists := true, resourceUpToDate := true,
           connectionDetails := [] }⟩

/-- What a call to Update produced. -/
structure UpdateOutcome where
  record : Managed
  result : Except ExtError ExternalUpdate
  deriving DecidableEq

/-- `external.Update` (key.go): type-check, then return empty
ConnectionDetails; no external call is made and the record is
untouched. -/
def externalUpdate (c : External) (mg : Managed) : UpdateOutcome :=
  match c, mg with
  | _, .team t => ⟨.team t, .error .notKey⟩
  | _, .key cr => ⟨.key cr, .ok { connectionDetails := [] }⟩

/-- What a call to Delete produced. -/
structure DeleteOutcome where
  record : Managed
  result : Except ExtError Unit
  deriving DecidableEq

/-- `external.Delete` (key.go): type-check, then return success; no
external call is made and the record is untouched. -/
def externalDelete (c : External) (mg : Managed) : DeleteOutcome :=
  match c, mg with
  | _, .team t => ⟨.team t, .error .notKey⟩
  | _, .key cr => ⟨.key cr, .ok ()⟩

/-- The atProvider.key field of a managed record (empty for non-Keys). -/
def atProviderKeyOf : Managed → String
  | .key cr => cr.status.atProvider.key
  | .team _ => ""

/-- Concrete Key parameters matching the spec's scenario record. -/
def sampleParams : KeyParameters :=
  { duration := "24h", keyAlias := "svc-a", key := "", teamID := "",
    userID := "", models := [], maxBudget := 0, budgetDuration := "",
    metadata := [] }

/-- A concrete Key record. -/
def sampleKey : Key :=
  { metadata := { name := "k1" },
    spec := { providerConfigRef := "pc1", forProvider := sampleParams },
    status := { conditions := [],
                atProvider := { key := "", expires := 0, userID := "",
                                status := "" } } }

/-- The same record with different prior atProvider contents. -/
def sampleKey2 : Key :=
  { sampleKey with status := { sampleKey.status with
      atProvider := { key := "old", expires := 7, userID := "u0",
                      status := "stale" } } }

/-- The decoded response of the spec's scenario. -/
def sampleResponse : KeyGenerateResponse :=
  { key := "sk-123", expires := 0, userID := "u1", status := "generated" }

/-- A concrete bound client. -/
def sampleExternal : External :=
  { service := .noOp, apiBase := "http://litellm", apiKey := "master" }

/-- A Create environment where everything succeeds and the response
decodes to the scenario values. -/
def createEnvOk : CreateEnv :=
  { marshalErr := none, newRequestErr := none,
    doResult := .response (.decoded sampleResponse) }

/-- A Create environment whose HTTP round trip fails. -/
def createEnvTransportErr : CreateEnv :=
  { marshalErr := none, newRequestErr := none,
    doResult := .transportErr "connection refused" }

/-- A concrete ProviderConfig. -/
def pcSample : ProviderConfig :=
  { apiBase := "http://litellm", credentialsSource := "secret" }

/-- A Connect environment where every collaborator succeeds. -/
def connectEnvOk : ConnectEnv :=
  { track := .ok ()
    getPC := fun _ => .ok pcSample
    extractCreds := fun _ => .ok [("apiKey", "master")]
    newService := fun _ => .ok .noOp }

/-- C2: for every record of kind Key, Observe returns ResourceExists =
true, ResourceUpToDate = true and an empty ConnectionDetails map, with no
error; the result is a constant independent of the record and of any
external state (Observe consults none), so the up-to-date flag is
returned unconditionally, without diffing desired against observed
state. -/
theorem observe_returns_up_to_date_unconditionally (c : External) (cr : Key) :
    externalObserve c (Managed.key cr) =
      ⟨Managed.key cr,
       .ok { resourceExists := true, resourceUpToDate := true,
             connectionDetails := [] }⟩ := rfl

/-- C10: Observe, Update and Delete leave the Key record completely
unchanged, and Observe and Update each return an empty ConnectionDetails
map. -/
theorem observe_update_delete_leave_record_unchanged (c : External) (cr : Key) :
    (externalObserve c (Managed.key cr)).record = Managed.key cr ∧
    (externalUpdate c (Managed.key cr)).record = Managed.key cr ∧
    (externalDelete c (Managed.key cr)).record = Managed.key cr ∧
    (externalObserve c (Managed.key cr)).result =
      .ok { resourceExists := true, resourceUpToDate := true,
            connectionDetails := [] } ∧
    (externalUpdate c (Managed.key cr)).result =
      .ok { connectionDetails := [] } :=
  ⟨rfl, rfl, rfl, rfl, rfl⟩

/-- C7: Delete on a Key record always succeeds and leaves the record
unchanged; iterating Delete any number of times keeps the record fixed
and every further call still succeeds.  Delete consults no external
state at all (the source issues no call), so the result cannot depend on
whether the external resource exists or is already absent. -/
theorem delete_idempotent (c : External) (cr : Key) (n : Nat) :
    externalDelete c (Managed.key cr) = ⟨Managed.key cr, .ok ()⟩ ∧
    (fun mg => (externalDelete c mg).record)^[n] (Managed.key cr) =
      Managed.key cr ∧
    (externalDelete c
      ((fun mg => (externalDelete c mg).record)^[n] (Managed.key cr))).result =
      .ok () := by
  refine ⟨rfl, Function.iterate_fixed rfl n, ?_⟩
  rw [Function.iterate_fixed rfl n]
  rfl

/-- C6: every external-client method rejects a non-Key managed resource
with the same contract-violation error, issuing no request and leaving
the record untouched; that error renders as the errNotKey message and is
distinct from every marshal, request, transport and decode error. -/
theorem wrong_kind_contract_violation (c : External) (env : CreateEnv)
    (t : Team) :
    externalObserve c (Managed.team t) = ⟨Managed.team t, .error .notKey⟩ ∧
    externalCreate c env (Managed.team t) =
      ⟨Managed.team t, [], .error .notKey⟩ ∧
    externalUpdate c (Managed.team t) = ⟨Managed.team t, .error .notKey⟩ ∧
    externalDelete c (Managed.team t) = ⟨Managed.team t, .error .notKey⟩ ∧
    ExtError.notKey.message = errNotKey ∧
    (∀ s : String,
      ExtError.notKey ≠ ExtError.marshalFailed s ∧
      ExtError.notKey ≠ ExtError.requestFailed s ∧
      ExtError.notKey ≠ ExtError.createKeyFailed s ∧
      ExtError.notKey ≠ ExtError.decodeFailed s) := by
  refine ⟨rfl, rfl, rfl, rfl, rfl, fun s => ⟨?_, ?_, ?_, ?_⟩⟩ <;>
    intro h <;> exact ExtError.noConfusion h

/-- C4: when marshalling and request construction succeed, Create issues
exactly one request: a POST to apiBase ++ "/key/generate" with the
Content-Type and bearer Authorization headers, whose JSON body has
exactly the nine fields duration, key_alias, key, team_id, user_id,
models, max_budget, budget_duration, metadata, each taken from the
corresponding field of spec.forProvider. -/
theorem create_issues_single_post_request (c : External) (env : CreateEnv)
    (cr : Key)
    (hm : env.marshalErr = none) (hr : env.newRequestErr = none) :
    (externalCreate c env (Managed.key cr)).requests =
      [{ method := "POST",
         url := c.apiBase ++ "/key/generate",
         headers := [("Content-Type", "application/json"),
                     ("Authorization", "Bearer " ++ c.apiKey)],
         body := [("duration", .str cr.spec.forProvider.duration),
                  ("key_alias", .str cr.spec.forProvider.keyAlias),
                  ("key", .str cr.spec.forProvider.key),
                  ("team_id", .str cr.spec.forProvider.teamID),
                  ("user_id", .str cr.spec.forProvider.userID),
                  ("models", .strList cr.spec.forProvider.models),
                  ("max_budget", .num cr.spec.forProvider.maxBudget),
                  ("budget_duration", .str cr.spec.forProvider.budgetDuration),
                  ("metadata", .strMap cr.spec.forProvider.metadata)] }] := by
  rcases hd : env.doResult with e | b
  · simp [externalCreate, hm, hr, hd, createRequest, createPayload]
  · rcases b with e | r <;>
      simp [externalCreate, hm, hr, hd, createRequest, createPayload]

/-- C4 witness: at the concrete sample inputs. -/
theorem create_issues_single_post_request_witness :
    (externalCreate sampleExternal createEnvOk (Managed.key sampleKey)).requests =
      [{ method := "POST",
         url := sampleExternal.apiBase ++ "/key/generate",
         headers := [("Content-Type", "application/json"),
                     ("Authorization", "Bearer " ++ sampleExternal.apiKey)],
         body := [("duration", .str sampleKey.spec.forProvider.duration),
                  ("key_alias", .str sampleKey.spec.forProvider.keyAlias),
                  ("key", .str sampleKey.spec.forProvider.key),
                  ("team_id", .str sampleKey.spec.forProvider.teamID),
                  ("user_id", .str sampleKey.spec.forProvider.userID),
                  ("models", .strList sampleKey.spec.forProvider.models),
                  ("max_budget", .num sampleKey.spec.forProvider.maxBudget),
                  ("budget_duration",
                   .str sampleKey.spec.forProvider.budgetDuration),
                  ("metadata", .strMap sampleKey.spec.forProvider.metadata)] }] :=
  create_issues_single_post_request sampleExternal createEnvOk sampleKey rfl rfl

/-- C5: on a successful Create whose response decodes to
{key, expires, user_id, status}, the post-state record carries an
atProvider built entirely from the decoded response (prior atProvider
contents do not appear), and the returned ConnectionDetails maps "key"
to the response key bytes. -/
theorem create_overwrites_status (c : External) (env : CreateEnv) (cr : Key)
    (r : KeyGenerateResponse)
    (hm : env.marshalErr = none) (hr : env.newRequestErr = none)
    (hd : env.doResult = .response (.decoded r)) :
    externalCreate c env (Managed.key cr) =
      ⟨Managed.key { cr with status := { cr.status with
          atProvider := { key := r.key, expires := r.expires,
                          userID := r.userID, status := r.status } } },
       [createRequest c.apiBase c.apiKey cr.spec.forProvider],
       .ok { connectionDetails := [("key", r.key)] }⟩ := by
  simp [externalCreate, hm, hr, hd]

/-- C5 witness: at the concrete sample inputs. -/
theorem create_overwrites_status_witness :
    externalCreate sampleExternal createEnvOk (Managed.key sampleKey) =
      ⟨Managed.key { sampleKey with status := { sampleKey.status with
          atProvider := { key := "sk-123", expires := 0, userID := "u1",
                          status := "generated" } } },
       [createRequest sampleExternal.apiBase sampleExternal.apiKey
          sampleKey.spec.forProvider],
       .ok { connectionDetails := [("key", "sk-123")] }⟩ :=
  create_overwrites_status sampleExternal createEnvOk sampleKey sampleResponse
    rfl rfl rfl

/-- C9: whenever Create returns an error (wrong kind, marshal failure,
request-construction failure, transport failure or decode failure), the
managed record is left exactly as it was; the status fields are written
only on the successful-decode path. -/
theorem create_error_leaves_record_unchanged (c : External) (env : CreateEnv)
    (mg : Managed) (er : ExtError)
    (h : (externalCreate c env mg).result = .error er) :
    (externalCreate c env mg).record = mg := by
  rcases mg with cr | t
  · rcases hm : env.marshalErr with _ | e
    · rcases hr : env.newRequestErr with _ | e
      · rcases hd : env.doResult with e | (e | r)
        · simp [externalCreate, hm, hr, hd]
        · simp [externalCreate, hm, hr, hd]
        · simp [externalCreate, hm, hr, hd] at h
      · simp [externalCreate, hm, hr]
    · simp [externalCreate, hm]
  · rfl

/-- C9 witness: a transport failure at the concrete sample inputs leaves
the record unchanged. -/
theorem create_error_leaves_record_unchanged_witness :
    (externalCreate sampleExternal createEnvTransportErr
      (Managed.key sampleKey)).record = Managed.key sampleKey :=
  create_error_leaves_record_unchanged sampleExternal createEnvTransportErr
    (Managed.key sampleKey) (.createKeyFailed "connection refused") rfl

/-- C8: status.atProvider is never treated as input — two Key records
identical except in status.atProvider yield byte-for-byte identical
Create request payloads (the request depends only on spec.forProvider
and the bound client), identical Create request traces and results, and
identical Observe, Update and Delete results. -/
theorem atProvider_never_input (c : External) (env : CreateEnv)
    (cr1 cr2 : Key)
    (hmeta : cr1.metadata = cr2.metadata)
    (hspec : cr1.spec = cr2.spec)
    (hcond : cr1.status.conditions = cr2.status.conditions) :
    createRequest c.apiBase c.apiKey cr1.spec.forProvider =
      createRequest c.apiBase c.apiKey cr2.spec.forProvider ∧
    (externalCreate c env (Managed.key cr1)).requests =
      (externalCreate c env (Managed.key cr2)).requests ∧
    (externalCreate c env (Managed.key cr1)).result =
      (externalCreate c env (Managed.key cr2)).result ∧
    (externalObserve c (Managed.key cr1)).result =
      (externalObserve c (Managed.key cr2)).result ∧
    (externalUpdate c (Managed.key cr1)).result =
      (externalUpdate c (Managed.key cr2)).result ∧
    (externalDelete c (Managed.key cr1)).result =
      (externalDelete c (Managed.key cr2)).result := by
  have hfp : cr1.spec.forProvider = cr2.spec.forProvider := by rw [hspec]
  refine ⟨by rw [hfp], ?_, ?_, rfl, rfl, rfl⟩ <;>
    rcases hm : env.marshalErr with _ | e <;>
    rcases hr : env.newRequestErr with _ | e <;>
    rcases hd : env.doResult with e | (e | r) <;>
    simp [externalCreate, hm, hr, hd, hfp]

/-- C8 witness: the two sample records differ only in atProvider and
get the same Create result. -/
theorem atProvider_never_input_witness :
    (externalCreate sampleExternal createEnvOk (Managed.key sampleKey)).result =
      (externalCreate sampleExternal createEnvOk
        (Managed.key sampleKey2)).result :=
  (atProvider_never_input sampleExternal createEnvOk sampleKey sampleKey2
    rfl rfl rfl).2.2.1

/-- C3: Connect attempts its five steps in the fixed order type-check,
track usage, get ProviderConfig, get credentials, construct service;
each step is attempted only after every earlier one succeeded (the
attempted-step trace of each failure case is the corresponding initial
segment), each failure yields its own distinct error constructor, the
full trace occurs exactly when a client is returned, and on any failure
no client is returned. -/
theorem connect_steps_ordered_distinct_errors (env : ConnectEnv) :
    (∀ t : Team, connectorConnect env (Managed.team t) =
      ⟨[.typeCheck], .error .notKey⟩) ∧
    (∀ (cr : Key) (e : String), env.track = .error e →
      connectorConnect env (Managed.key cr) =
        ⟨[.typeCheck, .trackUsage], .error (.trackFailed e)⟩) ∧
    (∀ (cr : Key) (e : String), env.track = .ok () →
      env.getPC cr.spec.providerConfigRef = .error e →
      connectorConnect env (Managed.key cr) =
        ⟨[.typeCheck, .trackUsage, .getProviderConfig],
         .error (.getPCFailed e)⟩) ∧
    (∀ (cr : Key) (pc : ProviderConfig) (e : String), env.track = .ok () →
      env.getPC cr.spec.providerConfigRef = .ok pc →
      env.extractCreds pc.credentialsSource = .error e →
      connectorConnect env (Managed.key cr) =
        ⟨[.typeCheck, .trackUsage, .getProviderConfig, .getCredentials],
         .error (.getCredsFailed e)⟩) ∧
    (∀ (cr : Key) (pc : ProviderConfig) (d : CredData) (e : String),
      env.track = .ok () →
      env.getPC cr.spec.providerConfigRef = .ok pc →
      env.extractCreds pc.credentialsSource = .ok d →
      env.newService d = .error e →
      connectorConnect env (Managed.key cr) =
        ⟨[.typeCheck, .trackUsage, .getProviderConfig, .getCredentials,
          .newService],
         .error (.newClientFailed e)⟩) ∧
    (∀ (cr : Key) (pc : ProviderConfig) (d : CredData) (svc : Service),
      env.track = .ok () →
      env.getPC cr.spec.providerConfigRef = .ok pc →
      env.extractCreds pc.credentialsSource = .ok d →
      env.newService d = .ok svc →
      connectorConnect env (Managed.key cr) =
        ⟨[.typeCheck, .trackUsage, .getProviderConfig, .getCredentials,
          .newService],
         .ok { service := svc, apiBase := pc.apiBase,
               apiKey := lookupStr d resourceCredentialsSecretAPIKeyKey }⟩) ∧
    (∀ (mg : Managed) (er : ConnErr),
      (connectorConnect env mg).result = .error er →
      ∀ ex : External, (connectorConnect env mg).result ≠ .ok ex) ∧
    (∀ e1 e2 e3 e4 : String,
      [ConnErr.notKey, .trackFailed e1, .getPCFailed e2, .getCredsFailed e3,
       .newClientFailed e4].Pairwise (· ≠ ·)) := by
  refine ⟨fun t => rfl, ?_, ?_, ?_, ?_, ?_, ?_, ?_⟩
  · intro cr e h1
    simp [connectorConnect, h1]
  · intro cr e h1 h2
    simp [connectorConnect, h1, h2]
  · intro cr pc e h1 h2 h3
    simp [connectorConnect, h1, h2, h3]
  · intro cr pc d e h1 h2 h3 h4
    simp [connectorConnect, h1, h2, h3, h4]
  · intro cr pc d svc h1 h2 h3 h4
    simp [connectorConnect, h1, h2, h3, h4]
  · intro mg er h ex
    rw [h]
    intro hc
    exact Except.noConfusion hc
  · intro e1 e2 e3 e4
    simp [List.pairwise_cons]

/-- C3 witness: a fully successful Connect at concrete inputs attempts
all five steps in order and returns the bound client. -/
theorem connect_steps_witness :
    connectorConnect connectEnvOk (Managed.key sampleKey) =
      ⟨[.typeCheck, .trackUsage, .getProviderConfig, .getCredentials,
        .newService],
       .ok { service := .noOp, apiBase := pcSample.apiBase,
             apiKey := lookupStr [("apiKey", "master")]
                         resourceCredentialsSecretAPIKeyKey }⟩ :=
  (connect_steps_ordered_distinct_errors connectEnvOk).2.2.2.2.2.1 sampleKey
    pcSample [("apiKey", "master")] .noOp rfl rfl rfl rfl

/-- C1: counterexample to "no secret key material is ever stored on the
record" — at the concrete scenario input, Create succeeds, the issued
key "sk-123" is the secret returned through ConnectionDetails, and that
same key is written into status.atProvider.key of the record
(key.go line 223). -/
theorem create_stores_issued_key_in_atProvider :
    (externalCreate sampleExternal createEnvOk (Managed.key sampleKey)).result =
      .ok { connectionDetails := [("key", "sk-123")] } ∧
    atProviderKeyOf
      (externalCreate sampleExternal createEnvOk
        (Managed.key sampleKey)).record = "sk-123" ∧
    (externalCreate sampleExternal createEnvOk (Managed.key sampleKey)).record =
      Managed.key { sampleKey with status := { sampleKey.status with
        atProvider := { key := "sk-123", expires := 0, userID := "u1",
                        status := "generated" } } } :=
  ⟨rfl, rfl, rfl⟩

/-- C1 (amended): on every successful Create the issued key flows
through the returned ConnectionDetails under the name "key", and is
additionally written into status.atProvider.key — it is not confined to
the Connection Publisher path. -/
theorem create_key_in_details_and_atProvider (c : External) (env : CreateEnv)
    (cr : Key) (r : KeyGenerateResponse)
    (hm : env.marshalErr = none) (hr : env.newRequestErr = none)
    (hd : env.doResult = .response (.decoded r)) :
    (externalCreate c env (Managed.key cr)).result =
      .ok { connectionDetails := [("key", r.key)] } ∧
    atProviderKeyOf (externalCreate c env (Managed.key cr)).record = r.key := by
  simp [externalCreate, hm, hr, hd, atProviderKeyOf]

/-- C1 (amended) witness: at the concrete scenario input. -/
theorem create_key_in_details_and_atProvider_witness :
    (externalCreate sampleExternal createEnvOk (Managed.key sampleKey)).result =
      .ok { connectionDetails := [("key", sampleResponse.key)] } ∧
    atProviderKeyOf
      (externalCreate sampleExternal createEnvOk
        (Managed.key sampleKey)).record = sampleResponse.key :=
  create_key_in_details_and_atProvider sampleExternal createEnvOk sampleKey
    sampleResponse rfl rfl rfl

end LiteLLM
